import Mathlib

/-!
Verification of the crowdloan refund command
(`bittensor_cli/src/commands/crowd/refund.py`).

The single public operation, `refund_crowdloan`, fetches a crowdloan
snapshot and the current block, gates on eligibility (found, not
finalized, contribution window closed), classifies a display status,
computes a batching estimate from the contributor count and the
network refund limit, asks for confirmation, unlocks the wallet, and
submits the refund extrinsic, optionally waiting for inclusion or
finalization acknowledgment.

The embedding below mirrors the Python source step by step.  External
collaborators (ledger client, wallet unlock, confirmation prompt) are
modelled as a pre-resolved environment record; the observable effects
the claims speak about (the returned pair, whether a call was
submitted, whether the acknowledgment was awaited, the values routed
to the display) are collected in a trace record.
-/

namespace CrowdRefund

/-- On-chain snapshot of one crowdloan, as read by
`subtensor.get_single_crowdloan`.  `end_` is the source's `end`
field (a Lean keyword).  Python integers are unbounded, so every
numeric field is `Int`. -/
structure CrowdloanSnapshot where
  end_ : Int
  cap : Int
  raised : Int
  deposit : Int
  contributors_count : Int
  finalized : Bool
deriving DecidableEq

/-- Result of `unlock_key(wallet)`. -/
structure UnlockResult where
  success : Bool
  message : String
deriving DecidableEq

/-- The ledger's response to `submit_extrinsic`: the success flag and
the "name" entry of the structured `error_message` dict (absent when
the dict has no such key). -/
structure Response where
  is_success : Bool
  error_name : Option String
deriving DecidableEq

/-- Pre-resolved external collaborators for one invocation: the
snapshot fetch (`none` when the id does not resolve), the current
block height, the `RefundContributorsLimit` constant, the unlock
outcome, the answer the confirmation prompt would return, and the
submission response. -/
structure LedgerEnv where
  crowdloan : Option CrowdloanSnapshot
  current_block : Int
  refund_limit : Int
  unlock : UnlockResult
  confirm : Bool
  response : Response
deriving DecidableEq

/-- Observable outcome of one invocation: the returned
`(success, message)` pair plus the effects the source performs along
the way.  `submitted` records whether the refund call was composed,
signed and submitted; `awaited_ack` whether `process_events` /
`is_success` were consulted; `displayed_remaining` the block count
handed to `blocks_to_duration` in the not-yet-ended error message;
`displayed_status` the status string placed in the info table;
`displayed_estimate` the `estimated_calls` value computed for the
info table. -/
structure RefundTrace where
  result : Bool × String
  submitted : Bool
  awaited_ack : Bool
  displayed_remaining : Option Int
  displayed_status : Option String
  displayed_estimate : Option Int
deriving DecidableEq

/-- The batching estimate exactly as computed inline in
`refund_crowdloan` (source lines 110-115):
`refundable_contributors = max(0, crowdloan.contributors_count)` and
`estimated_calls = (refundable_contributors + refund_limit) // refund_limit
if refund_limit > 0 else 0`.  Python `//` is floor division,
i.e. `Int.fdiv`. -/
def estimated_calls (contributors_count refund_limit : Int) : Int :=
  let refundable_contributors := max 0 contributors_count
  if refund_limit > 0 then
    (refundable_contributors + refund_limit).fdiv refund_limit
  else 0

/-- The status classification of source lines 100-106, kept with the
source's literal (markup-bearing) strings. -/
def classify_status (s : CrowdloanSnapshot) (current_block : Int) : String :=
  if current_block ≥ s.end_ then
    if s.raised < s.cap then "[red]Failed[/red] (Cap not reached)"
    else "[yellow]Ended but not finalized[/yellow]"
  else "[green]Active[/green] (Still accepting contributions)"

/-- Shallow embedding of `refund_crowdloan`.  Control flow follows the
source line by line: not-found check, finalized check, window-open
check, detail display, status classification and batching estimate,
confirmation prompt (`prompt and not Confirm.ask(...)`), wallet
unlock, compose/sign/submit, then either the fire-and-forget return
or the acknowledgment wait and its success/failure classification. -/
def refund_crowdloan (env : LedgerEnv) (crowdloan_id : Int)
    (wait_for_inclusion wait_for_finalization prompt : Bool) : RefundTrace :=
  match env.crowdloan with
  | none =>
    { result := (false, "Crowdloan #" ++ toString crowdloan_id ++ " not found.")
      submitted := false
      awaited_ack := false
      displayed_remaining := none
      displayed_status := none
      displayed_estimate := none }
  | some crowdloan =>
    if crowdloan.finalized then
      { result := (false, "Crowdloan #" ++ toString crowdloan_id ++ " is already finalized.")
        submitted := false
        awaited_ack := false
        displayed_remaining := none
        displayed_status := none
        displayed_estimate := none }
    else if crowdloan.end_ > env.current_block then
      { result := (false, "Crowdloan #" ++ toString crowdloan_id ++ " is not yet ended.")
        submitted := false
        awaited_ack := false
        displayed_remaining := some (crowdloan.end_ - env.current_block)
        displayed_status := none
        displayed_estimate := none }
    else
      let status := classify_status crowdloan env.current_block
      let est := estimated_calls crowdloan.contributors_count env.refund_limit
      if prompt && !env.confirm then
        { result := (false, "Refund cancelled by user.")
          submitted := false
          awaited_ack := false
          displayed_remaining := none
          displayed_status := some status
          displayed_estimate := some est }
      else if !env.unlock.success then
        { result := (false, env.unlock.message)
          submitted := false
          awaited_ack := false
          displayed_remaining := none
          displayed_status := some status
          displayed_estimate := some est }
      else if !wait_for_finalization && !wait_for_inclusion then
        { result := (true, "Refund transaction submitted.")
          submitted := true
          awaited_ack := false
          displayed_remaining := none
          displayed_status := some status
          displayed_estimate := some est }
      else if !env.response.is_success then
        { result := (false, env.response.error_name.getD "Unknown error")
          submitted := true
          awaited_ack := true
          displayed_remaining := none
          displayed_status := some status
          displayed_estimate := some est }
      else
        { result := (true, "Refund completed successfully.")
          submitted := true
          awaited_ack := true
          displayed_remaining := none
          displayed_status := some status
          displayed_estimate := some est }

/-- Concrete snapshot for the already-finalized scenario (Scenario B):
crowdloan #7, finalized. -/
def snapFinalized : CrowdloanSnapshot :=
  { end_ := 100, cap := 1000, raised := 500, deposit := 10
    contributors_count := 250, finalized := true }

/-- Concrete non-finalized snapshot for crowdloan #7 with contribution
window ending at block 100 (Scenarios A, D, E, F). -/
def snap7 : CrowdloanSnapshot :=
  { end_ := 100, cap := 1000, raised := 500, deposit := 10
    contributors_count := 250, finalized := false }

/-- Successful wallet unlock. -/
def okUnlock : UnlockResult := { success := true, message := "" }

/-- Failed wallet unlock with the unlock subsystem's message. -/
def badUnlock : UnlockResult :=
  { success := false, message := "Failed to unlock keyfile." }

/-- Successful ledger response. -/
def okResponse : Response := { is_success := true, error_name := none }

/-- Failed ledger response whose structured error carries the name
"InsufficientFunds" (Scenario F). -/
def failedResponse : Response :=
  { is_success := false, error_name := some "InsufficientFunds" }

/-- Environment where crowdloan #7 resolves finalized. -/
def envFinalized : LedgerEnv :=
  { crowdloan := some snapFinalized, current_block := 150, refund_limit := 100
    unlock := okUnlock, confirm := true, response := okResponse }

/-- Environment where crowdloan #7 resolves with its window still open
(`end = 100`, `current_block = 50`). -/
def envOpen : LedgerEnv :=
  { crowdloan := some snap7, current_block := 50, refund_limit := 100
    unlock := okUnlock, confirm := true, response := okResponse }

/-- Environment where crowdloan #7 has ended, everything succeeds. -/
def envEnded : LedgerEnv :=
  { crowdloan := some snap7, current_block := 150, refund_limit := 100
    unlock := okUnlock, confirm := true, response := okResponse }

/-- Environment where crowdloan #7 has ended and the ledger reports the
extrinsic failed with error name "InsufficientFunds". -/
def envFailedAck : LedgerEnv :=
  { crowdloan := some snap7, current_block := 150, refund_limit := 100
    unlock := okUnlock, confirm := true, response := failedResponse }

/-- Environment where crowdloan #7 has ended but the wallet unlock
fails. -/
def envBadUnlock : LedgerEnv :=
  { crowdloan := some snap7, current_block := 150, refund_limit := 100
    unlock := badUnlock, confirm := true, response := okResponse }

/-- For a positive refund limit the source's estimate is floor division
of the clamped contributor count plus one. -/
theorem estimated_calls_pos_eq (c l : Int) (hl : 0 < l) :
    estimated_calls c l = max 0 c / l + 1 := by
  have h1 : (max 0 c + 1 * l) / l = max 0 c / l + 1 :=
    Int.add_mul_ediv_right _ 1 (ne_of_gt hl)
  rw [one_mul] at h1
  simp only [estimated_calls, if_pos hl]
  rw [Int.fdiv_eq_ediv _ (le_of_lt hl)]
  exact h1

/-- C1 counterexample: with refund limit 1 the code's estimate at
0 contributors is 1, not the claimed 0, and at 1 contributor it is 2,
not the claimed smallest k with k * 1 >= 1 (which is 1). -/
theorem C1_counterexample :
    estimated_calls 0 1 ≠ 0 ∧ estimated_calls 1 1 ≠ 1 := by decide

/-- C1 (amended): for every contributors_count >= 0 and every integer
refund_limit, the batching estimate returns 0 when refund_limit <= 0,
and otherwise returns the smallest integer k such that
k * refund_limit > contributors_count (strictly greater); in
particular contributors_count = 0 gives k = 1, contributors_count =
refund_limit gives k = 2, and contributors_count = refund_limit + 1
gives k = 2 whenever refund_limit > 1. -/
theorem C1_smallest_k (c l : Int) (hc : 0 ≤ c) :
    (l ≤ 0 → estimated_calls c l = 0) ∧
    (0 < l →
      c < estimated_calls c l * l ∧
      (∀ k : Int, c < k * l → estimated_calls c l ≤ k) ∧
      estimated_calls 0 l = 1 ∧
      estimated_calls l l = 2 ∧
      (1 < l → estimated_calls (l + 1) l = 2)) := by
  constructor
  · intro hle
    simp [estimated_calls, not_lt.mpr hle]
  · intro hl
    have heq : estimated_calls c l = c / l + 1 := by
      rw [estimated_calls_pos_eq c l hl, max_eq_right hc]
    refine ⟨?_, ?_, ?_, ?_, ?_⟩
    · rw [heq]
      exact Int.lt_ediv_add_one_mul_self c hl
    · intro k hk
      rw [heq]
      exact Int.add_one_le_iff.mpr ((Int.ediv_lt_iff_lt_mul hl).mpr hk)
    · rw [estimated_calls_pos_eq 0 l hl]
      simp
    · rw [estimated_calls_pos_eq l l hl, max_eq_right (le_of_lt hl),
        Int.ediv_self (ne_of_gt hl)]
      norm_num
    · intro h1
      have hc1 : (0:Int) ≤ l + 1 := by linarith
      have hsplit : (l + 1 : Int) = 1 + 1 * l := by ring
      rw [estimated_calls_pos_eq (l + 1) l hl, max_eq_right hc1, hsplit,
        Int.add_mul_ediv_right 1 1 (ne_of_gt hl),
        Int.ediv_eq_zero_of_lt (by norm_num) h1]
      norm_num

/-- C1 witness at contributors_count = 5, refund_limit = 2: the
estimate is 3, 3 * 2 > 5, and 3 is least with that property. -/
theorem C1_witness :
    ((2:Int) ≤ 0 → estimated_calls 5 2 = 0) ∧
    ((0:Int) < 2 →
      (5:Int) < estimated_calls 5 2 * 2 ∧
      (∀ k : Int, (5:Int) < k * 2 → estimated_calls 5 2 ≤ k) ∧
      estimated_calls 0 2 = 1 ∧
      estimated_calls 2 2 = 2 ∧
      ((1:Int) < 2 → estimated_calls (2 + 1) 2 = 2)) :=
  C1_smallest_k 5 2 (by decide)

/-- C2: for contributors_count >= 0 the estimate computed by
refund_crowdloan equals (contributors_count + refund_limit) //
refund_limit (Python floor division, Int.fdiv) when refund_limit > 0,
equals 0 when refund_limit <= 0, and is 3 at contributors_count = 250
with refund_limit = 100. -/
theorem C2_estimate_formula (c l : Int) (hc : 0 ≤ c) :
    (0 < l → estimated_calls c l = (c + l).fdiv l) ∧
    (l ≤ 0 → estimated_calls c l = 0) ∧
    estimated_calls 250 100 = 3 := by
  refine ⟨?_, ?_, by decide⟩
  · intro hl
    simp [estimated_calls, if_pos hl, max_eq_right hc]
  · intro hle
    simp [estimated_calls, not_lt.mpr hle]

/-- C2 witness at contributors_count = 250, refund_limit = 100. -/
theorem C2_witness :
    ((0:Int) < 100 → estimated_calls 250 100 = ((250:Int) + 100).fdiv 100) ∧
    ((100:Int) ≤ 0 → estimated_calls 250 100 = 0) ∧
    estimated_calls 250 100 = 3 :=
  C2_estimate_formula 250 100 (by decide)

/-- C10: for refund_limit > 0 the estimate equals
max(0, contributors_count) // refund_limit + 1, hence is at least 1
(contributors_count = 0 yields 1, never 0), and a negative
contributors_count is clamped to 0 before the division. -/
theorem C10_estimate_floor_plus_one (c l : Int) (hl : 0 < l) :
    estimated_calls c l = (max 0 c).fdiv l + 1 ∧
    1 ≤ estimated_calls c l ∧
    estimated_calls 0 l = 1 ∧
    (c < 0 → estimated_calls c l = estimated_calls 0 l) := by
  have h0 : (0:Int) ≤ l := le_of_lt hl
  have heq := estimated_calls_pos_eq c l hl
  refine ⟨?_, ?_, ?_, ?_⟩
  · rw [heq, Int.fdiv_eq_ediv _ h0]
  · rw [heq]
    have hnn : 0 ≤ max 0 c / l := Int.ediv_nonneg (le_max_left 0 c) h0
    linarith
  · rw [estimated_calls_pos_eq 0 l hl]
    simp
  · intro hneg
    rw [heq, estimated_calls_pos_eq 0 l hl, max_eq_left (le_of_lt hneg)]
    simp

/-- C10 witness at contributors_count = -5, refund_limit = 10. -/
theorem C10_witness :
    estimated_calls (-5) 10 = (max 0 (-5)).fdiv 10 + 1 ∧
    1 ≤ estimated_calls (-5) 10 ∧
    estimated_calls 0 10 = 1 ∧
    ((-5:Int) < 0 → estimated_calls (-5) 10 = estimated_calls 0 10) :=
  C10_estimate_floor_plus_one (-5) 10 (by decide)

/-- C5: a resolved finalized snapshot fails the eligibility gate
regardless of block height, with the already-finalized message. -/
theorem C5_finalized_rejected (env : LedgerEnv) (s : CrowdloanSnapshot)
    (crowdloan_id : Int) (wi wf p : Bool)
    (hsome : env.crowdloan = some s) (hfin : s.finalized = true) :
    (refund_crowdloan env crowdloan_id wi wf p).result =
      (false, "Crowdloan #" ++ toString crowdloan_id ++ " is already finalized.") := by
  simp [refund_crowdloan, hsome, hfin]

/-- C5 witness: crowdloan #7 finalized yields the Scenario B result. -/
theorem C5_witness :
    (refund_crowdloan envFinalized 7 true false true).result =
      (false, "Crowdloan #7 is already finalized.") :=
  C5_finalized_rejected envFinalized snapFinalized 7 true false true rfl rfl

/-- C6: a resolved, non-finalized snapshot whose window is still open
is rejected with the not-yet-ended message, and the remaining-blocks
count routed to the duration display is end - current_block. -/
theorem C6_window_open_rejected (env : LedgerEnv) (s : CrowdloanSnapshot)
    (crowdloan_id : Int) (wi wf p : Bool)
    (hsome : env.crowdloan = some s) (hfin : s.finalized = false)
    (hend : s.end_ > env.current_block) :
    (refund_crowdloan env crowdloan_id wi wf p).result =
      (false, "Crowdloan #" ++ toString crowdloan_id ++ " is not yet ended.") ∧
    (refund_crowdloan env crowdloan_id wi wf p).displayed_remaining =
      some (s.end_ - env.current_block) := by
  constructor <;> simp [refund_crowdloan, hsome, hfin, hend]

/-- C6 witness: crowdloan #7, end 100, current block 50 yields the
Scenario A result with 50 remaining blocks. -/
theorem C6_witness :
    (refund_crowdloan envOpen 7 true false true).result =
      (false, "Crowdloan #7 is not yet ended.") ∧
    (refund_crowdloan envOpen 7 true false true).displayed_remaining =
      some 50 :=
  C6_window_open_rejected envOpen snap7 7 true false true rfl rfl (by decide)

/-- Once past the eligibility gate, every branch of the orchestrator
places the classifier's status string in the info table. -/
theorem displayed_status_eq (env : LedgerEnv) (s : CrowdloanSnapshot)
    (crowdloan_id : Int) (wi wf p : Bool)
    (hsome : env.crowdloan = some s) (hfin : s.finalized = false)
    (hend : s.end_ ≤ env.current_block) :
    (refund_crowdloan env crowdloan_id wi wf p).displayed_status =
      some (classify_status s env.current_block) := by
  have hlt : ¬ s.end_ > env.current_block := not_lt.mpr hend
  simp only [refund_crowdloan, hsome, hfin, hlt, Bool.false_eq_true, if_false,
    ite_false]
  repeat' first
  | rfl
  | split

/-- C7: past the gate (ended, not finalized) the displayed status is
the classifier's value, which is the Failed (cap not reached) string
iff raised < cap and the ended-but-not-finalized string otherwise. -/
theorem C7_status_classification (env : LedgerEnv) (s : CrowdloanSnapshot)
    (crowdloan_id : Int) (wi wf p : Bool)
    (hsome : env.crowdloan = some s) (hfin : s.finalized = false)
    (hend : env.current_block ≥ s.end_) :
    (refund_crowdloan env crowdloan_id wi wf p).displayed_status =
      some (classify_status s env.current_block) ∧
    (classify_status s env.current_block = "[red]Failed[/red] (Cap not reached)" ↔
      s.raised < s.cap) ∧
    (¬ s.raised < s.cap →
      classify_status s env.current_block =
        "[yellow]Ended but not finalized[/yellow]") := by
  refine ⟨displayed_status_eq env s crowdloan_id wi wf p hsome hfin hend, ?_, ?_⟩
  · constructor
    · intro hstr
      by_contra hrc
      rw [classify_status, if_pos hend, if_neg hrc] at hstr
      exact absurd hstr (by decide)
    · intro hrc
      rw [classify_status, if_pos hend, if_pos hrc]
  · intro hrc
    rw [classify_status, if_pos hend, if_neg hrc]

/-- C7 witness: crowdloan #7 ended at block 150 with raised 500 below
cap 1000 classifies as Failed (cap not reached). -/
theorem C7_witness :
    (refund_crowdloan envEnded 7 true false true).displayed_status =
      some (classify_status snap7 150) ∧
    (classify_status snap7 150 = "[red]Failed[/red] (Cap not reached)" ↔
      (500:Int) < 1000) ∧
    (¬ (500:Int) < 1000 →
      classify_status snap7 150 = "[yellow]Ended but not finalized[/yellow]") :=
  C7_status_classification envEnded snap7 7 true false true rfl rfl (by decide)

/-- C8: whenever the status classification is reached, the snapshot
resolved with its window already closed, so the displayed status is
never the Active string. -/
theorem C8_active_unreachable (env : LedgerEnv) (crowdloan_id : Int)
    (wi wf p : Bool) (st : String)
    (h : (refund_crowdloan env crowdloan_id wi wf p).displayed_status = some st) :
    (∃ s, env.crowdloan = some s ∧ s.end_ ≤ env.current_block) ∧
    st ≠ "[green]Active[/green] (Still accepting contributions)" := by
  cases hc : env.crowdloan with
  | none => simp [refund_crowdloan, hc] at h
  | some s =>
    cases hfin : s.finalized with
    | true => simp [refund_crowdloan, hc, hfin] at h
    | false =>
      by_cases hend : s.end_ > env.current_block
      · simp [refund_crowdloan, hc, hfin, hend] at h
      · have hle : s.end_ ≤ env.current_block := not_lt.mp hend
        rw [displayed_status_eq env s crowdloan_id wi wf p hc hfin hle] at h
        have hst : st = classify_status s env.current_block :=
          (Option.some_inj.mp h).symm
        refine ⟨⟨s, rfl, hle⟩, ?_⟩
        rw [hst, classify_status, if_pos hle]
        split <;> decide

/-- C8 witness: the ended crowdloan #7 environment reaches the
classifier with a closed window and a non-Active status. -/
theorem C8_witness :
    (∃ s, envEnded.crowdloan = some s ∧ s.end_ ≤ envEnded.current_block) ∧
    "[red]Failed[/red] (Cap not reached)" ≠
      "[green]Active[/green] (Still accepting contributions)" :=
  C8_active_unreachable envEnded 7 true false true
    "[red]Failed[/red] (Cap not reached)" rfl

/-- C9: when the wallet unlock fails after confirmation, the result is
the unlock subsystem's message with success false, and no refund call
is composed, signed or submitted. -/
theorem C9_unlock_failure (env : LedgerEnv) (s : CrowdloanSnapshot)
    (crowdloan_id : Int) (wi wf p : Bool)
    (hsome : env.crowdloan = some s) (hfin : s.finalized = false)
    (hend : s.end_ ≤ env.current_block)
    (hconfirm : p = false ∨ env.confirm = true)
    (hunlock : env.unlock.success = false) :
    (refund_crowdloan env crowdloan_id wi wf p).result =
      (false, env.unlock.message) ∧
    (refund_crowdloan env crowdloan_id wi wf p).submitted = false := by
  have hlt : ¬ s.end_ > env.current_block := not_lt.mpr hend
  rcases hconfirm with h | h <;>
    constructor <;> simp [refund_crowdloan, hsome, hfin, hlt, h, hunlock]

/-- C9 witness: ended crowdloan #7 with a failing unlock returns the
unlock message and submits nothing. -/
theorem C9_witness :
    (refund_crowdloan envBadUnlock 7 true false true).result =
      (false, "Failed to unlock keyfile.") ∧
    (refund_crowdloan envBadUnlock 7 true false true).submitted = false :=
  C9_unlock_failure envBadUnlock snap7 7 true false true rfl rfl (by decide)
    (Or.inr rfl) rfl

/-- C4: with no inclusion or finalization wait requested, an eligible,
confirmed, unlocked run returns the submitted message immediately, the
acknowledgment is never awaited, and the trace is independent of the
ledger's response. -/
theorem C4_fire_and_forget (env : LedgerEnv) (s : CrowdloanSnapshot)
    (crowdloan_id : Int) (p : Bool)
    (hsome : env.crowdloan = some s) (hfin : s.finalized = false)
    (hend : s.end_ ≤ env.current_block)
    (hconfirm : p = false ∨ env.confirm = true)
    (hunlock : env.unlock.success = true) :
    (refund_crowdloan env crowdloan_id false false p).result =
      (true, "Refund transaction submitted.") ∧
    (refund_crowdloan env crowdloan_id false false p).awaited_ack = false ∧
    ∀ r : Response,
      refund_crowdloan { env with response := r } crowdloan_id false false p =
        refund_crowdloan env crowdloan_id false false p := by
  have hlt : ¬ s.end_ > env.current_block := not_lt.mpr hend
  refine ⟨?_, ?_, ?_⟩
  · rcases hconfirm with h | h <;>
      simp [refund_crowdloan, hsome, hfin, hlt, h, hunlock]
  · rcases hconfirm with h | h <;>
      simp [refund_crowdloan, hsome, hfin, hlt, h, hunlock]
  · intro r
    rcases hconfirm with h | h <;>
      simp [refund_crowdloan, hsome, hfin, hlt, h, hunlock]

/-- C4 witness: ended crowdloan #7, confirmation accepted, unlock
succeeds, no wait requested: Scenario E result, no acknowledgment
awaited, and swapping in the failing response changes nothing. -/
theorem C4_witness :
    (refund_crowdloan envEnded 7 false false true).result =
      (true, "Refund transaction submitted.") ∧
    (refund_crowdloan envEnded 7 false false true).awaited_ack = false ∧
    refund_crowdloan { envEnded with response := failedResponse } 7 false false true =
      refund_crowdloan envEnded 7 false false true := by
  have h := C4_fire_and_forget envEnded snap7 7 true rfl rfl (by decide)
    (Or.inr rfl) rfl
  exact ⟨h.1, h.2.1, h.2.2 failedResponse⟩

/-- C3: when inclusion or finalization acknowledgment was requested
and the ledger reports failure, the result is success false with the
structured error's name, defaulting to "Unknown error" when absent. -/
theorem C3_failed_ack (env : LedgerEnv) (s : CrowdloanSnapshot)
    (crowdloan_id : Int) (wi wf p : Bool)
    (hsome : env.crowdloan = some s) (hfin : s.finalized = false)
    (hend : s.end_ ≤ env.current_block)
    (hconfirm : p = false ∨ env.confirm = true)
    (hunlock : env.unlock.success = true)
    (hwait : wi = true ∨ wf = true)
    (hfail : env.response.is_success = false) :
    (refund_crowdloan env crowdloan_id wi wf p).result =
      (false, env.response.error_name.getD "Unknown error") := by
  have hlt : ¬ s.end_ > env.current_block := not_lt.mpr hend
  rcases hconfirm with h | h <;> rcases hwait with h2 | h2 <;>
    simp [refund_crowdloan, hsome, hfin, hlt, h, h2, hunlock, hfail]

/-- C3 witness: ended crowdloan #7, full wait, ledger failure named
InsufficientFunds yields the Scenario F result. -/
theorem C3_witness :
    (refund_crowdloan envFailedAck 7 true true true).result =
      (false, "InsufficientFunds") :=
  C3_failed_ack envFailedAck snap7 7 true true true rfl rfl (by decide)
    (Or.inr rfl) rfl (Or.inl rfl) rfl

end CrowdRefund
